import Mathlib

/-!
Verification of the captchaAPI record-lifecycle manager and helpers
(`src/app/views.py`, `src/utils/noise.py`).

The Python endpoints are shallowly embedded as pure functions over an
explicit application state.  Python dictionaries become functions
`String → Option α`; machine integers are `Int` (Python ints are
unbounded); the PIL image type is an abstract type parameter `Img`, and
`cap_gen` (defined outside the two source files) is an abstract
rendering function `String → Img` passed as a parameter.
-/

/-- A record of `flask_app.captchas_solution` (see `api_captcha`,
`check_solution` in `src/app/views.py`). -/
structure SolutionRecord where
  solution : String
  max_solution_check : Int
  solution_checked : Int
deriving Repr, DecidableEq

/-- A record of `flask_app.captcha_cdn` (see `api_captcha`, `get_img` in
`src/app/views.py`).  `image : Option Img` models the lazily rendered
PIL image (`None` until the first fetch); `time` is the stored expiry
timestamp (written but never read in `views.py`). -/
structure CdnRecord (Img : Type) where
  solution : String
  image : Option Img
  time : Int
  cdn_accessed_number : Int
  max_cdn_access : Int
  solution_id : String

/-- The mutable module state of the Flask app: the two record tables and
the process-wide issue counter. -/
structure AppState (Img : Type) where
  captchas_solution : String → Option SolutionRecord
  captcha_cdn : String → Option (CdnRecord Img)
  captcha_count : Int

/-- Point update of a string-keyed table. -/
def tset {α : Type} (m : String → Option α) (k : String) (v : Option α) :
    String → Option α :=
  fun k' => if k' = k then v else m k'

/-- Outcome of `GET /api/v5/cdn/<key>` (`get_img`). -/
inductive GetResult (Img : Type) where
  | served : Img → GetResult Img
  | exhausted : GetResult Img
  | notFound : GetResult Img
deriving DecidableEq

/-- The HTTP status code attached to each `get_img` outcome in the
source: 200 for the image, 418 for the "accessed too many times"
error, 400 for "cdn key not found". -/
def GetResult.code {Img : Type} : GetResult Img → Nat
  | .served _ => 200
  | .exhausted => 418
  | .notFound => 400

/-- `get_img` from `src/app/views.py`.

The whole body runs under `try ... except KeyError`.  Every dictionary
subscript that can raise `KeyError` is modelled by a `match` whose
`none` branch returns the 400 "cdn key not found" response with the
state unchanged.  In the exhausted branch the source deletes
`captchas_solution[solution_id]` *before* `captcha_cdn[key]`; if the
solution record is already gone that `del` raises `KeyError`, the
handler answers 400 and neither table is modified. -/
def get_img {Img : Type} (render : String → Img) (st : AppState Img)
    (key : String) : GetResult Img × AppState Img :=
  match st.captcha_cdn key with
  | none => (.notFound, st)
  | some r =>
    if r.cdn_accessed_number ≥ r.max_cdn_access then
      match st.captchas_solution r.solution_id with
      | none => (.notFound, st)
      | some _ =>
        (.exhausted,
          { st with
            captchas_solution := tset st.captchas_solution r.solution_id none
            captcha_cdn := tset st.captcha_cdn key none })
    else
      let r1 := { r with cdn_accessed_number := r.cdn_accessed_number + 1 }
      match r1.image with
      | none =>
        let pil_image := render r1.solution
        let r2 := { r1 with image := some pil_image }
        (.served pil_image,
          { st with captcha_cdn := tset st.captcha_cdn key (some r2) })
      | some pil_image =>
        (.served pil_image,
          { st with captcha_cdn := tset st.captcha_cdn key (some r1) })

/-- Outcome of `POST /api/v5/captcha` (`api_captcha`): either the 400
parameter error or the JSON payload of handles. -/
inductive IssueResult where
  | invalidParameter : IssueResult
  | issued : String → String → IssueResult
deriving DecidableEq

/-- `api_captcha` from `src/app/views.py`.

The random draws made by the handler — the two fresh handles from
`_b64_encrypt_id`, the solution string from `_id_generator`, and the
expiry timestamp — enter as parameters.  `maxCdnAccess` /
`maxSolutionCheck` model `data.get(key, 5)`: `none` when the JSON field
is absent. -/
def api_captcha {Img : Type} (solution_id cdn_id solution : String)
    (expiry : Int) (maxCdnAccess maxSolutionCheck : Option Int)
    (st : AppState Img) : IssueResult × AppState Img :=
  let cdn_access := maxCdnAccess.getD 5
  let solution_check := maxSolutionCheck.getD 5
  if cdn_access ≥ 20 ∨ cdn_access ≤ 0 then
    (.invalidParameter, st)
  else if solution_check ≥ 20 ∨ solution_check ≤ 0 then
    (.invalidParameter, st)
  else
    let st1 :=
      { st with
        captchas_solution := tset st.captchas_solution solution_id
          (some { solution := solution
                  max_solution_check := solution_check
                  solution_checked := 0 }) }
    let st2 :=
      { st1 with
        captcha_cdn := tset st1.captcha_cdn cdn_id
          (some { solution := solution
                  image := none
                  time := expiry
                  cdn_accessed_number := 0
                  max_cdn_access := cdn_access
                  solution_id := solution_id }) }
    (.issued cdn_id solution_id, { st2 with captcha_count := st2.captcha_count + 1 })

/-- Outcome of `POST /api/v5/check/<solution_id>` (`check_solution`).
`result b1 b2` is the success JSON
`{case_sensitive_correct: b1, case_insensitive_correct: b2}`; by
construction it carries nothing but the two booleans. -/
inductive CheckResult where
  | result : Bool → Bool → CheckResult
  | exhausted : CheckResult
  | notFound : CheckResult
  | missingAttempt : CheckResult
deriving DecidableEq

/-- The HTTP status code of each `check_solution` outcome in the source:
200 for the JSON result, 418 for "accessed too many times", 400 both for
"solution_id not found" and for "attempt not found in HTTP json". -/
def CheckResult.code : CheckResult → Nat
  | .result _ _ => 200
  | .exhausted => 418
  | .notFound => 400
  | .missingAttempt => 400

/-- Python's `str.lower()` restricted to its ASCII action: lower-case
every character of the string.  (`views.py` only ever lower-cases the
generated ASCII solutions and the caller's attempt; the spec leaves
non-ASCII case-folding as an open question.) -/
def py_lower (s : String) : String := ⟨s.data.map Char.toLower⟩

/-- `check_solution` from `src/app/views.py`.

`attempt` is `Option String`: `none` when the JSON has no `attempt`
field; the source's `if not attempt` also treats the empty string as
missing.  Note the increment of `solution_checked` happens *before* the
attempt check, exactly as in the source.  Python's `str.lower()` is
modelled by `py_lower` (they agree on ASCII, which covers every
generated solution). -/
def check_solution (st : AppState Img) (solution_id : String)
    (attempt : Option String) : CheckResult × AppState Img :=
  match st.captchas_solution solution_id with
  | none => (.notFound, st)
  | some r =>
    if r.solution_checked ≥ r.max_solution_check then
      (.exhausted,
        { st with captchas_solution := tset st.captchas_solution solution_id none })
    else
      let r1 := { r with solution_checked := r.solution_checked + 1 }
      let st1 :=
        { st with captchas_solution := tset st.captchas_solution solution_id (some r1) }
      match attempt with
      | none => (.missingAttempt, st1)
      | some a =>
        if a = "" then (.missingAttempt, st1)
        else
          (.result (decide (a = r1.solution))
            (decide (py_lower a = py_lower r1.solution)), st1)

/-! ## Retrieve traces

`get_img_states render key st n` is the application state after `n`
successive `GET /api/v5/cdn/<key>` requests starting from `st`;
`get_img_nth` is the result of the `n`-th (0-indexed) such request. -/

def get_img_states {Img : Type} (render : String → Img) (key : String)
    (st : AppState Img) : Nat → AppState Img
  | 0 => st
  | n + 1 => (get_img render (get_img_states render key st n) key).snd

def get_img_nth {Img : Type} (render : String → Img) (key : String)
    (st : AppState Img) (n : Nat) : GetResult Img :=
  (get_img render (get_img_states render key st n) key).fst

/-- A `FreshCdn` hypothesis: `key` holds a just-issued cdn record (zero
accesses, no memoized image) whose paired solution record is present. -/
def FreshCdn {Img : Type} (st : AppState Img) (key : String)
    (r0 : CdnRecord Img) : Prop :=
  st.captcha_cdn key = some r0 ∧
  r0.cdn_accessed_number = 0 ∧
  r0.image = none ∧
  (st.captchas_solution r0.solution_id).isSome


/-! ### Step lemmas: one `get_img` call from a known table state. -/

lemma get_img_step_missing {Img : Type} (render : String → Img)
    (st : AppState Img) (key : String)
    (h : st.captcha_cdn key = none) :
    get_img render st key = (.notFound, st) := by
  simp [get_img, h]

lemma get_img_step_stale {Img : Type} (render : String → Img)
    (st : AppState Img) (key : String) (r : CdnRecord Img)
    (h : st.captcha_cdn key = some r)
    (hge : r.cdn_accessed_number ≥ r.max_cdn_access)
    (hs : st.captchas_solution r.solution_id = none) :
    get_img render st key = (.notFound, st) := by
  simp [get_img, h, hge, hs]

lemma get_img_step_exhausted {Img : Type} (render : String → Img)
    (st : AppState Img) (key : String) (r : CdnRecord Img)
    (srec : SolutionRecord)
    (h : st.captcha_cdn key = some r)
    (hge : r.cdn_accessed_number ≥ r.max_cdn_access)
    (hs : st.captchas_solution r.solution_id = some srec) :
    get_img render st key =
      (.exhausted,
        { st with
          captchas_solution := tset st.captchas_solution r.solution_id none
          captcha_cdn := tset st.captcha_cdn key none }) := by
  simp [get_img, h, hge, hs]

lemma get_img_step_fresh {Img : Type} (render : String → Img)
    (st : AppState Img) (key : String) (r : CdnRecord Img)
    (h : st.captcha_cdn key = some r)
    (hlt : r.cdn_accessed_number < r.max_cdn_access)
    (himg : r.image = none) :
    get_img render st key =
      (.served (render r.solution),
        { st with
          captcha_cdn := tset st.captcha_cdn key
            (some { r with
                    cdn_accessed_number := r.cdn_accessed_number + 1
                    image := some (render r.solution) }) }) := by
  simp [get_img, h, not_le.mpr hlt, himg]

lemma get_img_step_cached {Img : Type} (render : String → Img)
    (st : AppState Img) (key : String) (r : CdnRecord Img) (img : Img)
    (h : st.captcha_cdn key = some r)
    (hlt : r.cdn_accessed_number < r.max_cdn_access)
    (himg : r.image = some img) :
    get_img render st key =
      (.served img,
        { st with
          captcha_cdn := tset st.captcha_cdn key
            (some { r with cdn_accessed_number := r.cdn_accessed_number + 1 }) }) := by
  simp [get_img, h, not_le.mpr hlt, himg]

/-- Invariant of a retrieve trace on a fresh record: after `k ≤ max`
calls the record is still there with `cdn_accessed_number = k`, the
image memoized from the first call on, and the solution table and issue
counter untouched. -/
lemma get_img_trace_inv {Img : Type} (render : String → Img)
    (st : AppState Img) (key : String) (r0 : CdnRecord Img)
    (hf : FreshCdn st key r0) (k : Nat)
    (hk : (k : Int) ≤ r0.max_cdn_access) :
    (get_img_states render key st k).captcha_cdn key =
      some { r0 with
             cdn_accessed_number := (k : Int)
             image := if k = 0 then none else some (render r0.solution) } ∧
    (get_img_states render key st k).captchas_solution = st.captchas_solution ∧
    (get_img_states render key st k).captcha_count = st.captcha_count := by
  obtain ⟨h0, hc, hi, _⟩ := hf
  induction k with
  | zero =>
    refine ⟨?_, rfl, rfl⟩
    rw [show get_img_states render key st 0 = st from rfl, h0]
    cases r0
    simp_all
  | succ n ih =>
    have hn : (n : Int) ≤ r0.max_cdn_access := by push_cast at hk ⊢; omega
    obtain ⟨hcdn, hsol, hcnt⟩ := ih hn
    have hlt : ((n : Int)) < r0.max_cdn_access := by push_cast at hk ⊢; omega
    have hstep : get_img_states render key st (n + 1) =
        (get_img render (get_img_states render key st n) key).snd := rfl
    cases n with
    | zero =>
      rw [hstep, get_img_step_fresh render _ key _ hcdn (by simpa using hlt)
        (by simp)]
      refine ⟨?_, by simpa using hsol, by simpa using hcnt⟩
      simp [tset]
    | succ m =>
      rw [hstep, get_img_step_cached render _ key _ (render r0.solution) hcdn
        (by simpa using hlt) (by simp)]
      refine ⟨?_, by simpa using hsol, by simpa using hcnt⟩
      simp [tset]

/-- Once the cdn key is gone, every later request in the trace answers
404-style `notFound` (code 400) and changes nothing. -/
lemma get_img_states_none {Img : Type} (render : String → Img)
    (key : String) (st : AppState Img) (n : Nat)
    (h : (get_img_states render key st n).captcha_cdn key = none) (j : Nat) :
    (get_img_states render key st (n + j)).captcha_cdn key = none ∧
    get_img_nth render key st (n + j) = .notFound := by
  induction j with
  | zero =>
    refine ⟨h, ?_⟩
    unfold get_img_nth
    rw [Nat.add_zero, get_img_step_missing render _ key h]
  | succ i ih =>
    obtain ⟨hn, _⟩ := ih
    have hst : get_img_states render key st (n + (i + 1)) =
        get_img_states render key st (n + i) := by
      show (get_img render (get_img_states render key st (n + i)) key).snd = _
      rw [get_img_step_missing render _ key hn]
    refine ⟨by rw [hst]; exact hn, ?_⟩
    unfold get_img_nth
    rw [hst, get_img_step_missing render _ key hn]

/-- Calls strictly inside the limit serve the (memoized) render of the
record's solution. -/
lemma get_img_nth_served {Img : Type} (render : String → Img)
    (st : AppState Img) (key : String) (r0 : CdnRecord Img)
    (hf : FreshCdn st key r0) (k : Nat)
    (hk : (k : Int) < r0.max_cdn_access) :
    get_img_nth render key st k = .served (render r0.solution) := by
  obtain ⟨hcdn, hsol, hcnt⟩ :=
    get_img_trace_inv render st key r0 hf k (le_of_lt hk)
  unfold get_img_nth
  cases k with
  | zero =>
    rw [get_img_step_fresh render _ key _ hcdn (by simpa using hk) (by simp)]
  | succ n =>
    rw [get_img_step_cached render _ key _ (render r0.solution) hcdn
      (by simpa using hk) (by simp)]

/-- The call at index `max_cdn_access` hits the exhausted branch: it
answers 418 and deletes both the cdn record and the paired solution
record. -/
lemma get_img_nth_exhausted {Img : Type} (render : String → Img)
    (st : AppState Img) (key : String) (r0 : CdnRecord Img)
    (hf : FreshCdn st key r0) (hm0 : 0 ≤ r0.max_cdn_access) :
    get_img_nth render key st r0.max_cdn_access.toNat = .exhausted ∧
    (get_img_states render key st
      (r0.max_cdn_access.toNat + 1)).captcha_cdn key = none ∧
    (get_img_states render key st
      (r0.max_cdn_access.toNat + 1)).captchas_solution r0.solution_id = none := by
  obtain ⟨hcdn, hsol, hcnt⟩ :=
    get_img_trace_inv render st key r0 hf r0.max_cdn_access.toNat
      (by simp [Int.toNat_of_nonneg hm0])
  obtain ⟨h0, hc, hi, hsome⟩ := hf
  obtain ⟨srec, hsrec⟩ := Option.isSome_iff_exists.mp hsome
  have hsrec' : (get_img_states render key st
      r0.max_cdn_access.toNat).captchas_solution r0.solution_id = some srec := by
    rw [hsol]; exact hsrec
  have hstep := get_img_step_exhausted render
    (get_img_states render key st r0.max_cdn_access.toNat) key _ srec hcdn
    (by simp [Int.toNat_of_nonneg hm0]) hsrec'
  have hst : get_img_states render key st (r0.max_cdn_access.toNat + 1) =
      (get_img render (get_img_states render key st r0.max_cdn_access.toNat)
        key).snd := rfl
  refine ⟨?_, ?_, ?_⟩
  · unfold get_img_nth
    rw [hstep]
  · rw [hst, hstep]
    simp [tset]
  · rw [hst, hstep]
    simp [tset]

/-- **C1.** For every cdn record issued with limit `max_cdn_access` in
`[1, 19]` (together with its paired solution record), retrieval on its
handle succeeds exactly `max_cdn_access` times; the
`(max_cdn_access + 1)`-th retrieve answers Exhausted (HTTP 418) and
deletes the record, and every retrieve after that answers NotFound
(HTTP 400). -/
theorem C1_retrieve_lifecycle {Img : Type} (render : String → Img)
    (st : AppState Img) (key : String) (r0 : CdnRecord Img)
    (hf : FreshCdn st key r0)
    (h1 : 1 ≤ r0.max_cdn_access) (h19 : r0.max_cdn_access ≤ 19) :
    (∀ k : Nat, (k : Int) < r0.max_cdn_access →
       get_img_nth render key st k = .served (render r0.solution) ∧
       GetResult.code (get_img_nth render key st k) = 200) ∧
    (get_img_nth render key st r0.max_cdn_access.toNat = .exhausted ∧
     GetResult.code (get_img_nth render key st r0.max_cdn_access.toNat) = 418 ∧
     (get_img_states render key st
       (r0.max_cdn_access.toNat + 1)).captcha_cdn key = none) ∧
    (∀ k : Nat, (k : Int) > r0.max_cdn_access →
       get_img_nth render key st k = .notFound ∧
       GetResult.code (get_img_nth render key st k) = 400) := by
  have hm0 : (0 : Int) ≤ r0.max_cdn_access := by omega
  have hmn : (r0.max_cdn_access.toNat : Int) = r0.max_cdn_access :=
    Int.toNat_of_nonneg hm0
  obtain ⟨hex, hgone, hsolgone⟩ := get_img_nth_exhausted render st key r0 hf hm0
  refine ⟨?_, ⟨hex, by rw [hex]; rfl, hgone⟩, ?_⟩
  · intro k hk
    have h := get_img_nth_served render st key r0 hf k hk
    exact ⟨h, by rw [h]; rfl⟩
  · intro k hk
    have hkn : r0.max_cdn_access.toNat + 1 ≤ k := by omega
    obtain ⟨_, hnf⟩ := get_img_states_none render key st
      (r0.max_cdn_access.toNat + 1) hgone (k - (r0.max_cdn_access.toNat + 1))
    have hke : (r0.max_cdn_access.toNat + 1) +
        (k - (r0.max_cdn_access.toNat + 1)) = k := by omega
    rw [hke] at hnf
    exact ⟨hnf, by rw [hnf]; rfl⟩

/-! ### Concrete witness state: one freshly issued challenge with
`max_cdn_access = 2`, `max_solution_check = 3`, solution `"AbCd"`. -/

def witRender : String → String := fun s => String.append s "-img"

def witSolRec : SolutionRecord :=
  { solution := "AbCd", max_solution_check := 3, solution_checked := 0 }

def witCdnRec : CdnRecord String :=
  { solution := "AbCd", image := none, time := 0
    cdn_accessed_number := 0, max_cdn_access := 2, solution_id := "sid0" }

def witState : AppState String where
  captchas_solution := fun k => if k = "sid0" then some witSolRec else none
  captcha_cdn := fun k => if k = "cdn0" then some witCdnRec else none
  captcha_count := 7

theorem C1_retrieve_lifecycle_witness :
    get_img_nth witRender "cdn0" witState 0 = .served "AbCd-img" ∧
    get_img_nth witRender "cdn0" witState 1 = .served "AbCd-img" ∧
    get_img_nth witRender "cdn0" witState 2 = .exhausted ∧
    get_img_nth witRender "cdn0" witState 3 = .notFound := by
  have h := C1_retrieve_lifecycle witRender witState "cdn0" witCdnRec
    ⟨rfl, rfl, rfl, rfl⟩ (by decide) (by decide)
  obtain ⟨hA, ⟨hex, _, _⟩, hC⟩ := h
  exact ⟨(hA 0 (by decide)).1, (hA 1 (by decide)).1, hex, (hC 3 (by decide)).1⟩

/-- **C5.** If the paired solution record is already gone while the cdn
record sits at `cdn_accessed_number ≥ max_cdn_access`, a retrieve
answers NotFound (400), *not* Exhausted (418): the `del` of the missing
solution key raises `KeyError` before the cdn record can be deleted.
The cdn record survives, every later retrieve answers NotFound too, and
the state never changes. -/
theorem C5_stale_cdn_survives {Img : Type} (render : String → Img)
    (st : AppState Img) (key : String) (r : CdnRecord Img)
    (h : st.captcha_cdn key = some r)
    (hge : r.cdn_accessed_number ≥ r.max_cdn_access)
    (hs : st.captchas_solution r.solution_id = none) :
    ∀ n : Nat,
      get_img_nth render key st n = .notFound ∧
      GetResult.code (get_img_nth render key st n) = 400 ∧
      GetResult.code (get_img_nth render key st n) ≠ 418 ∧
      (get_img_states render key st n).captcha_cdn key = some r ∧
      get_img_states render key st (n + 1) = get_img_states render key st n := by
  have hst : ∀ n, get_img_states render key st n = st := by
    intro n
    induction n with
    | zero => rfl
    | succ m ih =>
      show (get_img render (get_img_states render key st m) key).snd = st
      rw [ih, get_img_step_stale render st key r h hge hs]
  intro n
  have hres : get_img_nth render key st n = .notFound := by
    unfold get_img_nth
    rw [hst n, get_img_step_stale render st key r h hge hs]
  refine ⟨hres, by rw [hres]; rfl,
    by rw [hres]; intro hcon; simp [GetResult.code] at hcon, ?_, ?_⟩
  · rw [hst n]; exact h
  · rw [hst n, hst (n + 1)]

/-- Witness state for C5: the cdn record is exhausted (2 of 2 accesses
used) and the paired solution record has already been deleted. -/
def witStaleCdnRec : CdnRecord String :=
  { solution := "AbCd", image := none, time := 0
    cdn_accessed_number := 2, max_cdn_access := 2, solution_id := "sid0" }

def witStaleState : AppState String where
  captchas_solution := fun _ => none
  captcha_cdn := fun k => if k = "cdn0" then some witStaleCdnRec else none
  captcha_count := 3

theorem C5_stale_cdn_survives_witness :
    get_img_nth witRender "cdn0" witStaleState 0 = .notFound ∧
    get_img_nth witRender "cdn0" witStaleState 5 = .notFound ∧
    (get_img_states witRender "cdn0" witStaleState 6).captcha_cdn "cdn0" =
      some witStaleCdnRec := by
  have h := C5_stale_cdn_survives witRender witStaleState "cdn0" witStaleCdnRec
    rfl (by decide) rfl
  exact ⟨(h 0).1, (h 5).1, (h 6).2.2.2.1⟩

/-- **C9.** The image of a cdn record is rendered at most once: it is
absent at issuance, the first successful retrieve computes and stores
`render solution`, every later successful retrieve on the still-live
handle serves exactly that stored value (byte-identical content), and a
call that finds a cached image never consults the renderer at all (the
outcome is the same for any two render functions). -/
theorem C9_image_memoized {Img : Type} (render : String → Img)
    (st : AppState Img) (key : String) (r0 : CdnRecord Img)
    (hf : FreshCdn st key r0) :
    r0.image = none ∧
    (∀ k : Nat, 1 ≤ k → (k : Int) ≤ r0.max_cdn_access →
       ∃ r', (get_img_states render key st k).captcha_cdn key = some r' ∧
         r'.image = some (render r0.solution)) ∧
    (∀ k : Nat, (k : Int) < r0.max_cdn_access →
       get_img_nth render key st k = .served (render r0.solution)) ∧
    (∀ (st' : AppState Img) (r : CdnRecord Img) (img : Img)
       (render2 : String → Img),
       st'.captcha_cdn key = some r → r.image = some img →
       get_img render st' key = get_img render2 st' key) := by
  refine ⟨hf.2.2.1, ?_, ?_, ?_⟩
  · intro k h1 hk
    obtain ⟨hcdn, -, -⟩ := get_img_trace_inv render st key r0 hf k hk
    refine ⟨_, hcdn, ?_⟩
    have : k ≠ 0 := by omega
    simp [this]
  · intro k hk
    exact get_img_nth_served render st key r0 hf k hk
  · intro st' r img render2 h himg
    by_cases hge : r.cdn_accessed_number ≥ r.max_cdn_access
    · cases hsol : st'.captchas_solution r.solution_id with
      | none =>
        rw [get_img_step_stale render st' key r h hge hsol,
          get_img_step_stale render2 st' key r h hge hsol]
      | some srec =>
        rw [get_img_step_exhausted render st' key r srec h hge hsol,
          get_img_step_exhausted render2 st' key r srec h hge hsol]
    · push_neg at hge
      rw [get_img_step_cached render st' key r img h hge himg,
        get_img_step_cached render2 st' key r img h hge himg]

theorem C9_image_memoized_witness :
    ((get_img_states witRender "cdn0" witState 1).captcha_cdn "cdn0").map
      CdnRecord.image = some (some "AbCd-img") ∧
    get_img_nth witRender "cdn0" witState 0 = .served "AbCd-img" ∧
    get_img_nth witRender "cdn0" witState 1 = .served "AbCd-img" := by
  have h := C9_image_memoized witRender witState "cdn0" witCdnRec
    ⟨rfl, rfl, rfl, rfl⟩
  obtain ⟨r', hr', hi⟩ := h.2.1 1 (by decide) (by decide)
  refine ⟨?_, h.2.2.1 0 (by decide), h.2.2.1 1 (by decide)⟩
  rw [hr']
  show some r'.image = some (some "AbCd-img")
  rw [hi]
  rfl

/-! ## Verify traces -/

lemma check_step_missing {Img : Type} (st : AppState Img) (sid : String)
    (att : Option String) (h : st.captchas_solution sid = none) :
    check_solution st sid att = (.notFound, st) := by
  simp [check_solution, h]

lemma check_step_exhausted {Img : Type} (st : AppState Img) (sid : String)
    (att : Option String) (r : SolutionRecord)
    (h : st.captchas_solution sid = some r)
    (hge : r.solution_checked ≥ r.max_solution_check) :
    check_solution st sid att =
      (.exhausted,
        { st with captchas_solution := tset st.captchas_solution sid none }) := by
  simp [check_solution, h, hge]

lemma check_step_ok {Img : Type} (st : AppState Img) (sid : String)
    (a : String) (r : SolutionRecord)
    (h : st.captchas_solution sid = some r)
    (hlt : r.solution_checked < r.max_solution_check)
    (hne : a ≠ "") :
    check_solution st sid (some a) =
      (.result (decide (a = r.solution))
        (decide (py_lower a = py_lower r.solution)),
        { st with
          captchas_solution := tset st.captchas_solution sid
            (some { r with solution_checked := r.solution_checked + 1 }) }) := by
  simp [check_solution, h, not_le.mpr hlt, hne]

def check_states {Img : Type} (sid : String) (atts : Nat → String)
    (st : AppState Img) : Nat → AppState Img
  | 0 => st
  | n + 1 => (check_solution (check_states sid atts st n) sid (some (atts n))).snd

def check_nth {Img : Type} (sid : String) (atts : Nat → String)
    (st : AppState Img) (n : Nat) : CheckResult :=
  (check_solution (check_states sid atts st n) sid (some (atts n))).fst

/-- A just-issued solution record: present with `solution_checked = 0`. -/
def FreshSol {Img : Type} (st : AppState Img) (sid : String)
    (s0 : SolutionRecord) : Prop :=
  st.captchas_solution sid = some s0 ∧ s0.solution_checked = 0

/-- Invariant of a verify trace with non-empty attempts: after
`k ≤ max_solution_check` calls the record shows `solution_checked = k`
and the cdn table and issue counter are untouched. -/
lemma check_trace_inv {Img : Type} (sid : String) (atts : Nat → String)
    (st : AppState Img) (s0 : SolutionRecord)
    (hf : FreshSol st sid s0) (hne : ∀ k, atts k ≠ "") (k : Nat)
    (hk : (k : Int) ≤ s0.max_solution_check) :
    (check_states sid atts st k).captchas_solution sid =
      some { s0 with solution_checked := (k : Int) } ∧
    (check_states sid atts st k).captcha_cdn = st.captcha_cdn ∧
    (check_states sid atts st k).captcha_count = st.captcha_count := by
  obtain ⟨h0, hc⟩ := hf
  induction k with
  | zero =>
    refine ⟨?_, rfl, rfl⟩
    rw [show check_states sid atts st 0 = st from rfl, h0]
    cases s0
    simp_all
  | succ n ih =>
    have hn : (n : Int) ≤ s0.max_solution_check := by push_cast at hk ⊢; omega
    have hlt : ((n : Int)) < s0.max_solution_check := by push_cast at hk ⊢; omega
    obtain ⟨hsol, hcdn, hcnt⟩ := ih hn
    have hstep := check_step_ok (check_states sid atts st n) sid (atts n) _
      hsol (by simpa using hlt) (hne n)
    have hst : check_states sid atts st (n + 1) =
        (check_solution (check_states sid atts st n) sid (some (atts n))).snd :=
      rfl
    rw [hst, hstep]
    refine ⟨?_, by simpa using hcdn, by simpa using hcnt⟩
    simp [tset]

/-- **C2.** Verify on a fresh solution record with limit
`max_solution_check` in `[1, 19]` succeeds exactly `max_solution_check`
times (given non-empty attempts); the next call answers Exhausted (418)
and deletes the solution record while the cdn table — hence the paired
image record — is completely untouched.  By contrast, an over-limit
retrieve on the image side deletes both the cdn record and its paired
solution record. -/
theorem C2_verify_lifecycle {Img : Type} (render : String → Img)
    (sid : String) (atts : Nat → String) (st : AppState Img)
    (s0 : SolutionRecord) (hf : FreshSol st sid s0)
    (hne : ∀ k, atts k ≠ "")
    (h1 : 1 ≤ s0.max_solution_check) (h19 : s0.max_solution_check ≤ 19) :
    (∀ k : Nat, (k : Int) < s0.max_solution_check →
       check_nth sid atts st k =
         .result (decide (atts k = s0.solution))
           (decide (py_lower (atts k) = py_lower s0.solution)) ∧
       CheckResult.code (check_nth sid atts st k) = 200) ∧
    (check_nth sid atts st s0.max_solution_check.toNat = .exhausted ∧
     CheckResult.code (check_nth sid atts st s0.max_solution_check.toNat) = 418 ∧
     (check_states sid atts st
       (s0.max_solution_check.toNat + 1)).captchas_solution sid = none ∧
     (check_states sid atts st
       (s0.max_solution_check.toNat + 1)).captcha_cdn = st.captcha_cdn) ∧
    (∀ (st' : AppState Img) (key : String) (r : CdnRecord Img)
       (srec : SolutionRecord),
       st'.captcha_cdn key = some r →
       r.cdn_accessed_number ≥ r.max_cdn_access →
       st'.captchas_solution r.solution_id = some srec →
       (get_img render st' key).fst = .exhausted ∧
       (get_img render st' key).snd.captcha_cdn key = none ∧
       (get_img render st' key).snd.captchas_solution r.solution_id = none) := by
  have hm0 : (0 : Int) ≤ s0.max_solution_check := by omega
  have hmn : (s0.max_solution_check.toNat : Int) = s0.max_solution_check :=
    Int.toNat_of_nonneg hm0
  refine ⟨?_, ?_, ?_⟩
  · intro k hk
    obtain ⟨hsol, -, -⟩ := check_trace_inv sid atts st s0 hf hne k (le_of_lt hk)
    have hstep := check_step_ok (check_states sid atts st k) sid (atts k) _
      hsol (by simpa using hk) (hne k)
    unfold check_nth
    rw [hstep]
    exact ⟨rfl, rfl⟩
  · obtain ⟨hsol, hcdn, -⟩ := check_trace_inv sid atts st s0 hf hne
      s0.max_solution_check.toNat (by rw [hmn])
    have hstep := check_step_exhausted
      (check_states sid atts st s0.max_solution_check.toNat) sid
      (some (atts s0.max_solution_check.toNat)) _ hsol (by simp [hmn])
    have hst1 : check_states sid atts st (s0.max_solution_check.toNat + 1) =
        (check_solution (check_states sid atts st s0.max_solution_check.toNat)
          sid (some (atts s0.max_solution_check.toNat))).snd := rfl
    refine ⟨?_, ?_, ?_, ?_⟩
    · unfold check_nth; rw [hstep]
    · unfold check_nth; rw [hstep]; rfl
    · rw [hst1, hstep]; simp [tset]
    · rw [hst1, hstep]; simpa using hcdn
  · intro st' key r srec h hge hsolr
    have hstep := get_img_step_exhausted render st' key r srec h hge hsolr
    rw [hstep]
    refine ⟨rfl, ?_, ?_⟩ <;> simp [tset]

/-- Witness state for the cdn-exhaustion half of C2: exhausted cdn
record whose paired solution record is still present. -/
def witExhState : AppState String where
  captchas_solution := fun k => if k = "sid0" then some witSolRec else none
  captcha_cdn := fun k => if k = "cdn0" then some witStaleCdnRec else none
  captcha_count := 3

theorem C2_verify_lifecycle_witness :
    check_nth "sid0" (fun _ => "xy") witState 0 = .result false false ∧
    check_nth "sid0" (fun _ => "xy") witState 3 = .exhausted ∧
    (check_states "sid0" (fun _ => "xy") witState 4).captchas_solution "sid0" =
      none ∧
    (check_states "sid0" (fun _ => "xy") witState 4).captcha_cdn =
      witState.captcha_cdn ∧
    (get_img witRender witExhState "cdn0").fst = .exhausted ∧
    (get_img witRender witExhState "cdn0").snd.captcha_cdn "cdn0" = none ∧
    (get_img witRender witExhState "cdn0").snd.captchas_solution "sid0" =
      none := by
  have h := C2_verify_lifecycle witRender "sid0" (fun _ => "xy") witState
    witSolRec ⟨rfl, rfl⟩ (fun _ => by show "xy" ≠ ""; decide) (by decide)
    (by decide)
  obtain ⟨hA, ⟨hex, -, hgone, hcdn⟩, hC⟩ := h
  have h0 := (hA 0 (by decide)).1
  have hCinst := hC witExhState "cdn0" witStaleCdnRec witSolRec rfl
    (by decide) rfl
  exact ⟨by rw [h0]; decide, hex, hgone, hcdn, hCinst.1, hCinst.2.1,
    hCinst.2.2⟩

/-- **C4.** For a live solution record and a non-empty attempt, the
verification result is `{case_sensitive_correct, case_insensitive_correct}`
where the first boolean is true iff the attempt equals the stored
solution exactly and the second iff they are equal after lower-casing
both; consequently a case-only variant yields `(false, true)` and a
string differing even after lower-casing yields `(false, false)`.  The
response carries only those two booleans: replacing the stored solution
by any string inducing the same two comparisons leaves the response
unchanged (the solution itself is never echoed). -/
theorem C4_check_semantics {Img : Type} (st : AppState Img) (sid : String)
    (r : SolutionRecord) (a : String)
    (h : st.captchas_solution sid = some r)
    (hlt : r.solution_checked < r.max_solution_check)
    (hne : a ≠ "") :
    (∃ b1 b2 : Bool,
       (check_solution st sid (some a)).fst = .result b1 b2 ∧
       (b1 = true ↔ a = r.solution) ∧
       (b2 = true ↔ py_lower a = py_lower r.solution)) ∧
    (a ≠ r.solution → py_lower a = py_lower r.solution →
       (check_solution st sid (some a)).fst = .result false true) ∧
    (py_lower a ≠ py_lower r.solution →
       (check_solution st sid (some a)).fst = .result false false) ∧
    (∀ sol' : String,
       (a = sol' ↔ a = r.solution) →
       (py_lower a = py_lower sol' ↔ py_lower a = py_lower r.solution) →
       (check_solution
         (AppState.mk
           (tset st.captchas_solution sid (some { r with solution := sol' }))
           st.captcha_cdn st.captcha_count)
         sid (some a)).fst = (check_solution st sid (some a)).fst) := by
  have hstep := check_step_ok st sid a r h hlt hne
  refine ⟨⟨_, _, by rw [hstep], by simp, by simp⟩, ?_, ?_, ?_⟩
  · intro hns hl
    rw [hstep]
    simp [hns, hl]
  · intro hl
    have hns : a ≠ r.solution := fun he => hl (by rw [he])
    rw [hstep]
    simp [hns, hl]
  · intro sol' h1 h2
    have hstep' := check_step_ok
      (AppState.mk
        (tset st.captchas_solution sid (some { r with solution := sol' }))
        st.captcha_cdn st.captcha_count)
      sid a { r with solution := sol' } (by simp [tset])
      (by simpa using hlt) hne
    rw [hstep', hstep]
    simp only [h1, h2]

theorem C4_check_semantics_witness :
    (check_solution witState "sid0" (some "AbCd")).fst = .result true true ∧
    (check_solution witState "sid0" (some "aBcD")).fst = .result false true ∧
    (check_solution witState "sid0" (some "zz")).fst = .result false false := by
  have hexact := C4_check_semantics witState "sid0" witSolRec "AbCd" rfl
    (by decide) (by decide)
  have hcase := C4_check_semantics witState "sid0" witSolRec "aBcD" rfl
    (by decide) (by decide)
  have hunrel := C4_check_semantics witState "sid0" witSolRec "zz" rfl
    (by decide) (by decide)
  obtain ⟨⟨b1, b2, he, hb1, hb2⟩, -, -, -⟩ := hexact
  refine ⟨?_, hcase.2.1 (by decide) (by decide), hunrel.2.2.1 (by decide)⟩
  rw [he, hb1.mpr rfl, hb2.mpr rfl]

/-- **C3.** Issue answers InvalidParameter (HTTP 400) iff at least one
of the two limit parameters (after applying the default of 5 for an
absent field) lies outside `[1, 19]`; on such a failure the state is
returned unchanged — no record is inserted and the issue counter is
not incremented.  Absent parameters default to 5. -/
theorem C3_issue_validation {Img : Type} (sid cid sol : String)
    (expiry : Int) (mca msc : Option Int) (st : AppState Img) :
    ((api_captcha sid cid sol expiry mca msc st).fst = .invalidParameter ↔
      ¬(1 ≤ mca.getD 5 ∧ mca.getD 5 ≤ 19) ∨
      ¬(1 ≤ msc.getD 5 ∧ msc.getD 5 ≤ 19)) ∧
    ((api_captcha sid cid sol expiry mca msc st).fst = .invalidParameter →
      (api_captcha sid cid sol expiry mca msc st).snd = st) ∧
    (mca = none → mca.getD 5 = 5) ∧
    (msc = none → msc.getD 5 = 5) := by
  refine ⟨?_, ?_, fun h => by rw [h]; rfl, fun h => by rw [h]; rfl⟩ <;>
    by_cases hA : mca.getD 5 ≥ 20 ∨ mca.getD 5 ≤ 0
  · simp only [api_captcha, if_pos hA]
    constructor
    · intro _
      rcases hA with h | h
      · exact Or.inl (by omega)
      · exact Or.inl (by omega)
    · intro _
      trivial
  · by_cases hB : msc.getD 5 ≥ 20 ∨ msc.getD 5 ≤ 0
    · simp only [api_captcha, if_neg hA, if_pos hB]
      constructor
      · intro _
        rcases hB with h | h
        · exact Or.inr (by omega)
        · exact Or.inr (by omega)
      · intro _
        trivial
    · simp only [api_captcha, if_neg hA, if_neg hB]
      constructor
      · intro hcon
        exact absurd hcon (by simp)
      · intro hor
        exfalso
        push_neg at hA hB
        rcases hor with h | h
        · exact h ⟨by omega, by omega⟩
        · exact h ⟨by omega, by omega⟩
  · intro _
    simp [api_captcha, hA]
  · by_cases hB : msc.getD 5 ≥ 20 ∨ msc.getD 5 ≤ 0
    · intro _
      simp [api_captcha, hA, hB]
    · intro hcon
      exfalso
      revert hcon
      simp [api_captcha, hA, hB]

theorem C3_issue_validation_witness :
    (api_captcha "s1" "c1" "AbCd" 0 (some 20) none witState).fst =
      .invalidParameter ∧
    (api_captcha "s1" "c1" "AbCd" 0 (some 20) none witState).snd = witState ∧
    (api_captcha "s1" "c1" "AbCd" 0 (some 0) (some 5) witState).fst =
      .invalidParameter ∧
    (api_captcha "s1" "c1" "AbCd" 0 (some 5) (some (-3)) witState).fst =
      .invalidParameter ∧
    (Option.getD (none : Option Int) 5 = 5) := by
  have h1 := C3_issue_validation "s1" "c1" "AbCd" 0 (some 20) none witState
  have h2 := C3_issue_validation "s1" "c1" "AbCd" 0 (some 0) (some 5) witState
  have h3 := C3_issue_validation "s1" "c1" "AbCd" 0 (some 5) (some (-3))
    witState
  have e1 := h1.1.mpr (Or.inl (by decide))
  exact ⟨e1, h1.2.1 e1, h2.1.mpr (Or.inl (by decide)),
    h3.1.mpr (Or.inr (by decide)), h1.2.2.2 rfl⟩

/-! ## Identifier generator (`_id_generator`) -/

/-- The character pool of `_id_generator` in `src/app/views.py`,
verbatim. -/
def id_alphabet : String :=
  "abcdefghijkmnopqrstuvwxyzABCDEFGHJKMNOPQRSTUVWXYZ"

/-- `_id_generator`: `y` draws of `secrets.choice(string)` joined into
one string.  The randomness is an oracle `draw` giving the index picked
at each position. -/
def _id_generator (draw : Nat → Fin id_alphabet.data.length) (y : Nat) :
    String :=
  ⟨(List.range y).map fun i => id_alphabet.data.get (draw i)⟩

/-- **C6 counterexample.** The claim fixes the alphabet size at 50, but
the pool string of `_id_generator` has 49 characters (`l`, `I` and `L`
are the ones left out of the 52 ASCII letters). -/
theorem C6_counterexample : ¬ id_alphabet.length = 50 := by decide

/-- **C6 (amended).** The identifier alphabet has exactly 49 characters,
excludes the visually ambiguous glyphs `l`, `1`, `I` and `0` (digits are
absent altogether, so there is no `0`/`O` confusion), and
`_id_generator draw y` returns a string of exactly `y` characters, each
belonging to the alphabet. -/
theorem C6_id_generator_alphabet
    (draw : Nat → Fin id_alphabet.data.length) (y : Nat) :
    id_alphabet.length = 49 ∧
    ('l' ∉ id_alphabet.data ∧ '1' ∉ id_alphabet.data ∧
     'I' ∉ id_alphabet.data ∧ '0' ∉ id_alphabet.data) ∧
    (_id_generator draw y).length = y ∧
    (∀ c ∈ (_id_generator draw y).data, c ∈ id_alphabet.data) := by
  refine ⟨by decide, by decide, ?_, ?_⟩
  · show ((List.range y).map _).length = y
    simp
  · intro c hc
    simp only [_id_generator, List.mem_map, List.mem_range] at hc
    obtain ⟨i, -, rfl⟩ := hc
    exact List.get_mem _ (draw i).1 (draw i).2

theorem C6_id_generator_alphabet_witness :
    id_alphabet.length = 49 ∧
    (_id_generator (fun _ => ⟨0, by decide⟩) 3).length = 3 ∧
    'a' ∈ id_alphabet.data := by
  have h := C6_id_generator_alphabet (fun _ => ⟨0, by decide⟩) 3
  refine ⟨h.1, h.2.2.1, h.2.2.2 'a' ?_⟩
  decide

/-! ## Handle codec (`_b64_encrypt_id`) -/

/-- Index-to-character table of the standard base64 alphabet
`A–Z a–z 0–9 + /` used by Python's `base64.b64encode`. -/
def b64_char (n : Nat) : Char :=
  if n < 26 then Char.ofNat (65 + n)
  else if n < 52 then Char.ofNat (97 + (n - 26))
  else if n < 62 then Char.ofNat (48 + (n - 52))
  else if n = 62 then '+'
  else '/'

/-- RFC 4648 base64 of a byte list (bytes as `Nat`), with `=` padding —
the encoding performed by `base64.b64encode`. -/
def b64encode : List Nat → List Char
  | [] => []
  | [b0] => [b64_char (b0 / 4), b64_char (b0 % 4 * 16), '=', '=']
  | [b0, b1] => [b64_char (b0 / 4), b64_char (b0 % 4 * 16 + b1 / 16),
                 b64_char (b1 % 16 * 4), '=']
  | b0 :: b1 :: b2 :: rest =>
      b64_char (b0 / 4) :: b64_char (b0 % 4 * 16 + b1 / 16) ::
      b64_char (b1 % 16 * 4 + b2 / 64) :: b64_char (b2 % 64) :: b64encode rest

/- Sanity check against CPython:
`base64.b64encode(b"123.abcdefghij.45") == b"MTIzLmFiY2RlZmdoaWouNDU="`. -/
example : b64encode ("123.abcdefghij.45".data.map Char.toNat) =
    "MTIzLmFiY2RlZmdoaWouNDU=".data := by decide

/-- `_b64_encrypt_id` from `src/app/views.py`:
`base64.b64encode(f"{flask_app.captcha_count}.{_id_generator(10)}.{time_now}")`
where `time_now = now.strftime("%S")[-5:]` (slicing a 2-character string
with `[-5:]` returns it unchanged, so `time_now` is the 2 digits of the
current second).  The counter value, the random draw and the timestamp
digits enter as parameters. -/
def _b64_encrypt_id (captcha_count : Nat) (rand time_now : String) :
    List Char :=
  b64encode
    ((Nat.repr captcha_count ++ "." ++ rand ++ "." ++ time_now).data.map
      Char.toNat)

/-- RFC 3986 `pchar` (unreserved / sub-delims / `:` / `@`): characters
allowed literally inside a URL path segment. -/
def isPathSafe (c : Char) : Bool :=
  c.isAlpha || c.isDigit ||
  c == '-' || c == '.' || c == '_' || c == '~' ||
  c == '!' || c == '$' || c == '&' || c == Char.ofNat 39 ||
  c == '(' || c == ')' || c == '*' || c == '+' ||
  c == ',' || c == ';' || c == '=' || c == ':' || c == '@'

lemma b64_char_safe_aux :
    ∀ m : Fin 64, m.val ≠ 63 → isPathSafe (b64_char m.val) = true := by decide

lemma b64_char_safe (n : Nat) (h : n < 64) (h63 : n ≠ 63) :
    isPathSafe (b64_char n) = true :=
  b64_char_safe_aux ⟨n, h⟩ h63

/-- Base64 of bytes `< 128` whose low 6 bits never equal 63 (true of
every character the handle input can contain) uses neither `/` nor any
other character outside RFC 3986 `pchar`. -/
lemma b64encode_safe (l : List Nat)
    (hl : ∀ b ∈ l, b < 128 ∧ b % 64 ≠ 63) :
    ∀ c ∈ b64encode l, isPathSafe c = true := by
  induction l using b64encode.induct with
  | case1 => simp [b64encode]
  | case2 b0 =>
    obtain ⟨hb0, -⟩ := hl b0 (by simp)
    intro c hc
    simp only [b64encode, List.mem_cons, List.not_mem_nil, or_false] at hc
    rcases hc with rfl | rfl | rfl | rfl
    · exact b64_char_safe _ (by omega) (by omega)
    · exact b64_char_safe _ (by omega) (by omega)
    · decide
    · decide
  | case3 b0 b1 =>
    obtain ⟨hb0, -⟩ := hl b0 (by simp)
    obtain ⟨hb1, -⟩ := hl b1 (by simp)
    intro c hc
    simp only [b64encode, List.mem_cons, List.not_mem_nil, or_false] at hc
    rcases hc with rfl | rfl | rfl | rfl
    · exact b64_char_safe _ (by omega) (by omega)
    · exact b64_char_safe _ (by omega) (by omega)
    · exact b64_char_safe _ (by omega) (by omega)
    · decide
  | case4 b0 b1 b2 rest ih =>
    obtain ⟨hb0, -⟩ := hl b0 (by simp)
    obtain ⟨hb1, -⟩ := hl b1 (by simp)
    obtain ⟨hb2, hb2m⟩ := hl b2 (by simp)
    intro c hc
    simp only [b64encode, List.mem_cons] at hc
    rcases hc with rfl | rfl | rfl | rfl | hc
    · exact b64_char_safe _ (by omega) (by omega)
    · exact b64_char_safe _ (by omega) (by omega)
    · exact b64_char_safe _ (by omega) (by omega)
    · exact b64_char_safe _ (by omega) (by omega)
    · exact ih (fun b hb => hl b (by simp [hb])) c hc

lemma isDigit_bounds (c : Char) (h : c.isDigit = true) :
    48 ≤ c.toNat ∧ c.toNat ≤ 57 := by
  simp only [Char.isDigit, Bool.and_eq_true, decide_eq_true_eq] at h
  exact ⟨h.1, h.2⟩

lemma digitChar_isDigit (n : Nat) (h : n < 10) :
    (Nat.digitChar n).isDigit = true := by
  interval_cases n <;> decide

lemma toDigitsCore_digits (f : Nat) :
    ∀ (n : Nat) (acc : List Char), (∀ c ∈ acc, c.isDigit = true) →
    ∀ c ∈ Nat.toDigitsCore 10 f n acc, c.isDigit = true := by
  induction f with
  | zero =>
    intro n acc hacc c hc
    simpa [Nat.toDigitsCore] using hacc c hc
  | succ f ih =>
    intro n acc hacc c hc
    simp only [Nat.toDigitsCore] at hc
    split at hc
    · rcases List.mem_cons.mp hc with rfl | h
      · exact digitChar_isDigit _ (Nat.mod_lt _ (by norm_num))
      · exact hacc c h
    · refine ih (n / 10) _ ?_ c hc
      intro c' hc'
      rcases List.mem_cons.mp hc' with rfl | h
      · exact digitChar_isDigit _ (Nat.mod_lt _ (by norm_num))
      · exact hacc c' h

/-- Every character of the decimal representation of a `Nat` (the
f-string rendering of `flask_app.captcha_count`) is a digit. -/
lemma repr_digits (n : Nat) : ∀ c ∈ (Nat.repr n).data, c.isDigit = true := by
  have hd : (Nat.repr n).data = Nat.toDigits 10 n := rfl
  rw [hd]
  exact toDigitsCore_digits (n + 1) n [] (by simp)

lemma id_alphabet_bytes :
    ∀ c ∈ id_alphabet.data, c.toNat < 128 ∧ c.toNat % 64 ≠ 63 := by decide

/-- **C7.** For every issue-counter value, every random component drawn
from the identifier alphabet, and every digit timestamp fragment, each
character of the base64-encoded handle is URL-path-safe (RFC 3986
`pchar`): the encoding of such input never produces `/`, and all other
base64 alphabet characters, `=` included, are path-safe. -/
theorem C7_handle_path_safe (captcha_count : Nat) (rand time_now : String)
    (hr : ∀ c ∈ rand.data, c ∈ id_alphabet.data)
    (ht : ∀ c ∈ time_now.data, c.isDigit = true) :
    ∀ c ∈ _b64_encrypt_id captcha_count rand time_now,
      isPathSafe c = true := by
  apply b64encode_safe
  intro b hb
  obtain ⟨c, hc, rfl⟩ := List.mem_map.mp hb
  have hsplit : (Nat.repr captcha_count ++ "." ++ rand ++ "." ++
      time_now).data =
      (Nat.repr captcha_count).data ++ '.' :: (rand.data ++
        '.' :: time_now.data) := by
    simp [String.data_append]
  rw [hsplit] at hc
  simp only [List.mem_append, List.mem_cons] at hc
  rcases hc with hdig | rfl | hrand | rfl | htime
  · obtain ⟨h1, h2⟩ := isDigit_bounds c (repr_digits captcha_count c hdig)
    omega
  · decide
  · exact id_alphabet_bytes c (hr c hrand)
  · decide
  · obtain ⟨h1, h2⟩ := isDigit_bounds c (ht c htime)
    omega

theorem C7_handle_path_safe_witness :
    (_b64_encrypt_id 123 "abcdefghij" "45").all isPathSafe = true := by
  rw [List.all_eq_true]
  intro c hc
  exact C7_handle_path_safe 123 "abcdefghij" "45" (by decide) (by decide) c hc

/-! ## Salt-and-pepper noise (`salt_and_pepper` in `src/utils/noise.py`) -/

/-- A PIL raster image: colour mode, size, and pixel contents (RGB
triples). -/
structure PILImage where
  mode : String
  width : Nat
  height : Nat
  px : Nat → Nat → Nat × Nat × Nat

/-- The tuple `(0, 0.1, 0.2, 0.3, 0.4, 0.5, 0.6, 0.7, 0.8, 0.9, 1)`
that `secrets.choice` draws from for every pixel in `salt_and_pepper`;
the decimal float literals are modelled as exact rationals. -/
def sp_tuple : List ℚ :=
  [0, 1/10, 2/10, 3/10, 4/10, 5/10, 6/10, 7/10, 8/10, 9/10, 1]

/-- `salt_and_pepper` from `src/utils/noise.py`: a fresh image of the
same mode and size; each pixel is pure white `(255, 255, 255)` when the
pixel's own uniform draw from `sp_tuple` is `< probability`, else the
input pixel.  `draws x y` is the index `secrets.choice` picks at pixel
`(x, y)`. -/
def salt_and_pepper (image : PILImage) (probability : ℚ)
    (draws : Nat → Nat → Fin sp_tuple.length) : PILImage :=
  { mode := image.mode
    width := image.width
    height := image.height
    px := fun x y =>
      if sp_tuple.get (draws x y) < probability then (255, 255, 255)
      else image.px x y }

/-- Probability that one pixel is replaced by white: the fraction of
the 11 equiprobable tuple values that compare `< probability`. -/
def sp_replace_prob (probability : ℚ) : ℚ :=
  (sp_tuple.countP (fun v => decide (v < probability)) : ℚ) /
    (sp_tuple.length : ℚ)

/-- **C8 counterexample.** At `probability = 1/2` the per-pixel
replacement probability is `5/11` (the five tuple values
`0, 0.1, 0.2, 0.3, 0.4` are below `1/2`), not `1/2`: the claimed
Bernoulli(`p`) statistics are false for the code's 11-point draw. -/
theorem C8_counterexample : ¬ sp_replace_prob (1/2) = 1/2 := by
  norm_num [sp_replace_prob, sp_tuple, List.countP, List.countP.go]

/-- **C8 (amended).** The salt-and-pepper stage returns an image of the
same mode and size in which every pixel is either pure white or the
input pixel at the same coordinates; a pixel is white exactly when its
own draw compares below `p`, the decision at `(x, y)` depends on no
other pixel's draw (so i.i.d. draws give i.i.d. decisions), and the
per-pixel replacement probability is
`#{v ∈ (0, 0.1, …, 1) : v < p} / 11` — a monotone step function of `p`
with values in `[0, 1]`, and *not* `p` itself in general. -/
theorem C8_salt_and_pepper_stats (image : PILImage) (p : ℚ)
    (draws : Nat → Nat → Fin sp_tuple.length) :
    ((salt_and_pepper image p draws).mode = image.mode ∧
     (salt_and_pepper image p draws).width = image.width ∧
     (salt_and_pepper image p draws).height = image.height) ∧
    (∀ x y, (salt_and_pepper image p draws).px x y = (255, 255, 255) ∨
       (salt_and_pepper image p draws).px x y = image.px x y) ∧
    (∀ x y, sp_tuple.get (draws x y) < p →
       (salt_and_pepper image p draws).px x y = (255, 255, 255)) ∧
    (∀ x y, ¬ sp_tuple.get (draws x y) < p →
       (salt_and_pepper image p draws).px x y = image.px x y) ∧
    (∀ (draws' : Nat → Nat → Fin sp_tuple.length) (x y : Nat),
       draws x y = draws' x y →
       (salt_and_pepper image p draws).px x y =
         (salt_and_pepper image p draws').px x y) ∧
    (0 ≤ sp_replace_prob p ∧ sp_replace_prob p ≤ 1) ∧
    (∀ p' : ℚ, p ≤ p' → sp_replace_prob p ≤ sp_replace_prob p') := by
  have hpx : ∀ x y, (salt_and_pepper image p draws).px x y =
      if sp_tuple.get (draws x y) < p then (255, 255, 255)
      else image.px x y := fun _ _ => rfl
  refine ⟨⟨rfl, rfl, rfl⟩, ?_, ?_, ?_, ?_, ⟨?_, ?_⟩, ?_⟩
  · intro x y
    rw [hpx]
    by_cases h : sp_tuple.get (draws x y) < p
    · exact Or.inl (if_pos h)
    · exact Or.inr (if_neg h)
  · intro x y h
    rw [hpx, if_pos h]
  · intro x y h
    rw [hpx, if_neg h]
  · intro draws' x y he
    rw [hpx]
    show _ = (if sp_tuple.get (draws' x y) < p then ((255, 255, 255) :
      Nat × Nat × Nat) else image.px x y)
    rw [he]
  · exact div_nonneg (by positivity) (by norm_num [sp_tuple])
  · rw [sp_replace_prob, div_le_one (by norm_num [sp_tuple])]
    exact_mod_cast List.countP_le_length _
  · intro p' hpp
    unfold sp_replace_prob
    gcongr
    exact_mod_cast List.countP_mono_left
      (fun v _ hv => decide_eq_true
        (lt_of_lt_of_le (of_decide_eq_true hv) hpp))

def witImage : PILImage :=
  { mode := "RGB", width := 2, height := 1, px := fun _ _ => (10, 20, 30) }

def witDraws : Nat → Nat → Fin sp_tuple.length :=
  fun x _ => if x = 0 then ⟨0, by norm_num [sp_tuple]⟩
             else ⟨10, by norm_num [sp_tuple]⟩

theorem C8_salt_and_pepper_stats_witness :
    (salt_and_pepper witImage (1/2) witDraws).px 0 0 = (255, 255, 255) ∧
    (salt_and_pepper witImage (1/2) witDraws).px 1 0 = (10, 20, 30) ∧
    (salt_and_pepper witImage (1/2) witDraws).mode = "RGB" ∧
    sp_replace_prob (1/2) ≤ 1 := by
  have h := C8_salt_and_pepper_stats witImage (1/2) witDraws
  exact ⟨h.2.2.1 0 0 (by norm_num [sp_tuple, witDraws]),
    h.2.2.2.1 1 0 (by norm_num [sp_tuple, witDraws]),
    h.1.1, h.2.2.2.2.2.1.2⟩

/-- A successful issue produces exactly the fresh-record configuration
that the lifecycle theorems assume: the inserted cdn record is fresh
(zero accesses, no image) with the caller's limit, and it is paired
with the inserted solution record. -/
lemma api_captcha_fresh {Img : Type} (sid cid sol : String) (expiry : Int)
    (mca msc : Option Int) (st : AppState Img)
    (hA : ¬(mca.getD 5 ≥ 20 ∨ mca.getD 5 ≤ 0))
    (hB : ¬(msc.getD 5 ≥ 20 ∨ msc.getD 5 ≤ 0)) :
    ∃ r0 : CdnRecord Img,
      FreshCdn (api_captcha sid cid sol expiry mca msc st).snd cid r0 ∧
      r0.max_cdn_access = mca.getD 5 ∧
      r0.solution_id = sid ∧
      FreshSol (api_captcha sid cid sol expiry mca msc st).snd sid
        { solution := sol
          max_solution_check := msc.getD 5
          solution_checked := 0 } := by
  refine ⟨{ solution := sol, image := none, time := expiry,
            cdn_accessed_number := 0, max_cdn_access := mca.getD 5,
            solution_id := sid }, ⟨?_, rfl, rfl, ?_⟩, rfl, rfl, ?_, rfl⟩
  · simp [api_captcha, hA, hB, tset]
  · simp [api_captcha, hA, hB, tset]
  · simp [api_captcha, hA, hB, tset]
